import Mathlib

/-
Verification development for the mcp-screenshot browser-automation core:
the concurrency gate (Semaphore), the browser session manager, the isolated
context factory, and the script sandbox (executeScript), shallowly embedded
from src/src/browser/browser-manager.ts, src/src/browser/script-executor.ts
and the tool handlers.
-/

namespace McpScreenshot

/-- Constant MAX_CONCURRENT_CONTEXTS from browser-manager.ts line 40. -/
def MAX_CONCURRENT_CONTEXTS : Nat := 5

/-- Constant SCRIPT_TIMEOUT (ms) from script-executor.ts line 22. -/
def SCRIPT_TIMEOUT : Nat := 60000

/-- Constant MAX_WAIT_TIME (ms) from script-executor.ts line 23. -/
def MAX_WAIT_TIME : Nat := 30000

/-- State of the Semaphore class (browser-manager.ts lines 12-38):
a count of available permits and a FIFO queue of pending waiters'
resolve callbacks, here identified by waiter ids. -/
structure Semaphore where
  permits : Nat
  queue : List Nat
  deriving Repr, DecidableEq

/-- Constructor `new Semaphore(permits)`: the queue starts empty. -/
def Semaphore.new (permits : Nat) : Semaphore :=
  { permits := permits, queue := [] }

/-- Whether an `acquire()` call returned synchronously or suspended the
caller on the queue. -/
inductive AcquireOutcome where
  | immediate : AcquireOutcome
  | suspended : AcquireOutcome
  deriving Repr, DecidableEq

/-- Semaphore.acquire (lines 20-28): if permits > 0, decrement and return
immediately; otherwise push the caller's resolve callback onto the queue
(at the back) and suspend. -/
def Semaphore.acquire (s : Semaphore) (waiter : Nat) : Semaphore × AcquireOutcome :=
  if 0 < s.permits then
    ({ s with permits := s.permits - 1 }, AcquireOutcome.immediate)
  else
    ({ s with queue := s.queue ++ [waiter] }, AcquireOutcome.suspended)

/-- Semaphore.release (lines 30-37): `shift()` the queue; if a waiter was
pending, resolve it (the returned `some w` is the waiter whose `acquire`
now resolves, and `permits` is not changed); otherwise increment
`permits`. Note the method takes no permit argument and is unguarded. -/
def Semaphore.release (s : Semaphore) : Semaphore × Option Nat :=
  match s.queue with
  | next :: rest => ({ s with queue := rest }, some next)
  | [] => ({ s with permits := s.permits + 1 }, none)

/-- Fold a list of acquiring callers through the semaphore, collecting each
caller's outcome in order. -/
def Semaphore.acquireAll (s : Semaphore) : List Nat → Semaphore × List (Nat × AcquireOutcome)
  | [] => (s, [])
  | w :: ws =>
    let p := s.acquire w
    let q := p.1.acquireAll ws
    (q.1, (w, p.2) :: q.2)

/-- The wrapped `context.close` installed by createContext (browser-manager.ts
lines 114-122): run the original close in a `try`, and in the `finally`
release the semaphore, so the release happens even when the underlying
close throws; the underlying error (if any) still propagates afterwards. -/
def wrappedClose (s : Semaphore) (closeThrows : Bool) : Semaphore × Option String :=
  ((s.release).1, if closeThrows then some "close failed" else none)

/-- Outcome of a createContext call: either a context was returned (with its
close wrapped), or creation failed and the error propagates. -/
inductive CreateOutcome where
  | created : CreateOutcome
  | failed (msg : String) : CreateOutcome
  deriving Repr, DecidableEq

/-- BrowserManager.createContext (browser-manager.ts lines 105-130), as one
semaphore transaction: acquire first; if obtaining the browser or creating
the context fails (`creationFails`), release in the catch block and let the
error propagate; otherwise return the context with its close wrapped. The
embedding covers the path on which the acquire resolved. -/
def createContext (s : Semaphore) (caller : Nat) (creationFails : Bool) :
    Semaphore × CreateOutcome :=
  let p := s.acquire caller
  if creationFails then
    ((p.1.release).1, CreateOutcome.failed "context creation failed")
  else
    (p.1, CreateOutcome.created)

example : (Semaphore.new 2).acquire 7 = (⟨1, []⟩, AcquireOutcome.immediate) := by decide

example : (Semaphore.new 0).acquire 7 = (⟨0, [7]⟩, AcquireOutcome.suspended) := by decide

example : Semaphore.release ⟨0, [3, 4]⟩ = (⟨0, [4]⟩, some 3) := by decide

/-- Acquiring exactly as many times as there are permits on a fresh gate
grants every caller immediately and drains the permits, leaving an empty
queue. -/
theorem acquireAll_exhausts (ws : List Nat) :
    (Semaphore.new ws.length).acquireAll ws =
      (⟨0, []⟩, ws.map (fun w => (w, AcquireOutcome.immediate))) := by
  induction ws with
  | nil => rfl
  | cons w ws ih =>
    simp only [Semaphore.acquireAll, Semaphore.acquire, List.length_cons, Semaphore.new,
      Nat.succ_sub_one, List.map]
    rw [if_pos (Nat.succ_pos ws.length)]
    simpa [Semaphore.new, Prod.ext_iff] using ih

/-- ScreenshotOptions (types.ts lines 5-8). -/
structure ScreenshotOptions where
  selector : Option String
  fullPage : Option Bool
  deriving Repr, DecidableEq

/-- ScriptResult (types.ts lines 10-13): the captured image bytes together
with the options used. -/
structure ScriptResult where
  buffer : List Nat
  options : ScreenshotOptions
  deriving Repr, DecidableEq

/-- HtmlCaptureResult (types.ts lines 48-51). -/
structure HtmlCaptureResult where
  html : String
  selector : Option String
  deriving Repr, DecidableEq

/-- ScriptExecutionResult (script-executor.ts lines 25-27): the tagged value
executeScript resolves with. -/
inductive ScriptExecutionResult where
  | screenshot (result : ScriptResult) : ScriptExecutionResult
  | html (result : HtmlCaptureResult) : ScriptExecutionResult
  deriving Repr, DecidableEq

/-- Message of the error the vm module throws when the synchronous portion of
the evaluated code exceeds the `timeout` option. -/
def vmTimeoutMessage : String := "Script execution timed out after 60000ms."

/-- Message of the error thrown when the script returned normally without
calling screenshot() or html() (script-executor.ts line 94). -/
def noCaptureMessage : String := "Script must call screenshot() or html() to capture content"

/-- Message of the timeout error executeScript rethrows (script-executor.ts
line 108, with SCRIPT_TIMEOUT / 1000 = 60). -/
def timeoutErrorMessage : String := "Script timeout: execution exceeded 60 seconds"

/-- The substring the catch clause looks for to classify an error as a
timeout (script-executor.ts line 107). -/
def timeoutMarker : String := "Script execution timed out"

/-- JavaScript `String.prototype.includes`: whether `pat` occurs as a
contiguous substring of `s`. -/
def containsSubstr (s pat : String) : Bool :=
  decide (pat.data <:+: s.data)

/-- The names bound in the vm context executeScript builds (script-executor.ts
lines 34-79): the page proxy, both capture operations, the wait helper and
the inert console. The set does not depend on which tool is running the
script — executeScript takes no expected-kind argument. -/
def sandboxGlobals : List String :=
  ["page", "screenshot", "html", "wait", "console"]

/-- How one run of the user script settles, abstracting the body of the
async IIFE the sandbox evaluates: the capture helpers throw the
ScreenshotTaken / HtmlCaptured signal (script-executor.ts lines 50, 65),
any other exception surfaces as an error with a message, or the body runs
to completion without capturing. A thrown error carries `hostError`:
whether the value is an instance of the host realm's Error intrinsic.
Errors raised by the host side — the vm timeout machinery, the proxied
page operations, the line-94 no-capture throw — are host-realm Errors;
an Error the script constructs inside the vm realm is an instance of the
sandbox realm's Error intrinsic, and the cross-realm
`e instanceof Error` check in the host catch is false for it. -/
inductive SettledOutcome where
  | screenshotTaken (r : ScriptResult) : SettledOutcome
  | htmlCaptured (r : HtmlCaptureResult) : SettledOutcome
  | threw (hostError : Bool) (msg : String) : SettledOutcome
  | completed : SettledOutcome
  deriving Repr, DecidableEq

/-- Abstract behavior of one user script run: `syncTime` is the wall-clock
spent in synchronous vm execution (the only thing the vm `timeout` option
bounds), `settleTime` the total wall-clock until the returned promise
settles, and `outcome` how it settles (`none`: the promise never
settles). -/
structure ScriptBehavior where
  syncTime : Nat
  settleTime : Nat
  outcome : Option SettledOutcome
  deriving Repr, DecidableEq

/-- Decidable equality for Except values, needed to evaluate executeScript
results on concrete inputs. -/
instance {ε α : Type} [DecidableEq ε] [DecidableEq α] : DecidableEq (Except ε α) := fun a b =>
  match a, b with
  | Except.ok x, Except.ok y =>
    if h : x = y then isTrue (by rw [h]) else isFalse (by intro he; cases he; exact h rfl)
  | Except.ok _, Except.error _ => isFalse (by intro he; cases he)
  | Except.error _, Except.ok _ => isFalse (by intro he; cases he)
  | Except.error x, Except.error y =>
    if h : x = y then isTrue (by rw [h]) else isFalse (by intro he; cases he; exact h rfl)

/-- Observable result of `await executeScript(...)`: it settles at some time
with either a ScriptExecutionResult or a thrown error message, or it never
settles. -/
inductive ExecOutcome where
  | settles (time : Nat) (result : Except String ScriptExecutionResult) : ExecOutcome
  | neverSettles : ExecOutcome
  deriving Repr, DecidableEq

/-- The catch clause of executeScript (script-executor.ts lines 95-113), in
source order: a ScreenshotTaken signal resolves as a screenshot result, an
HtmlCaptured signal as an html result, an error that is a host-realm
Error instance (`e instanceof Error`, line 107) and whose message contains
the timeout marker is replaced by the timeout error, and any other error —
including a vm-realm error whose message contains the marker — is rethrown
unchanged. The line-94 no-capture error (the `completed` case) is a
host-constructed Error, so its instanceof check is true and only the
substring check decides. -/
def handleCaught : SettledOutcome → Except String ScriptExecutionResult
  | SettledOutcome.screenshotTaken r => Except.ok (ScriptExecutionResult.screenshot r)
  | SettledOutcome.htmlCaptured r => Except.ok (ScriptExecutionResult.html r)
  | SettledOutcome.threw hostError msg =>
    if hostError && containsSubstr msg timeoutMarker then Except.error timeoutErrorMessage
    else Except.error msg
  | SettledOutcome.completed =>
    if containsSubstr noCaptureMessage timeoutMarker then Except.error timeoutErrorMessage
    else Except.error noCaptureMessage

/-- executeScript (script-executor.ts lines 32-114). `vm.runInContext` with
the `timeout` option aborts only the synchronous portion of the evaluated
code: if `syncTime` exceeds SCRIPT_TIMEOUT the vm throws its timeout error
(which the catch clause classifies by its marker substring) at the
deadline. Otherwise the returned promise is awaited with no further bound:
the run settles at `settleTime` — however large — and the outcome goes
through the catch clause; normal completion first throws the no-capture
error (line 94), which the catch clause rethrows unchanged. A promise that
never settles leaves executeScript pending forever. -/
def executeScript (b : ScriptBehavior) : ExecOutcome :=
  if SCRIPT_TIMEOUT < b.syncTime then
    ExecOutcome.settles SCRIPT_TIMEOUT
      (handleCaught (SettledOutcome.threw true vmTimeoutMessage))
  else
    match b.outcome with
    | none => ExecOutcome.neverSettles
    | some o => ExecOutcome.settles b.settleTime (handleCaught o)

/-- Settle record of the sandbox `wait` helper (script-executor.ts line 69):
a promise resolved by `setTimeout` after `Math.min(ms, MAX_WAIT_TIME)`;
it never rejects. -/
structure PromiseSettle where
  time : Nat
  rejected : Option String
  deriving Repr, DecidableEq

/-- The sandbox `wait(ms)` helper (script-executor.ts line 69). -/
def wait (ms : Nat) : PromiseSettle :=
  { time := min ms MAX_WAIT_TIME, rejected := none }

/-- The page proxy's `waitForTimeout(ms)` (script-executor.ts line 145):
forwards `Math.min(ms, MAX_WAIT_TIME)` to the underlying page, which
suspends for exactly its argument. -/
def waitForTimeout (ms : Nat) : PromiseSettle :=
  { time := min ms MAX_WAIT_TIME, rejected := none }

/-- The script branch of the html_capture handler (html-capture.ts lines
94-100): a script result of the wrong kind is rejected with a mismatch
error, never silently accepted; an html result yields its content and
selector. -/
def htmlCaptureScriptBranch (execResult : ScriptExecutionResult) :
    Except String (String × Option String) :=
  match execResult with
  | ScriptExecutionResult.html r => Except.ok (r.html, r.selector)
  | ScriptExecutionResult.screenshot _ =>
    Except.error "Script called screenshot() but html_capture expects html(). Use screenshot_capture tool instead."

/-- The script branch of the screenshot_capture handler (screenshot tool
source): a script result of the wrong kind is rejected with a mismatch
error; a screenshot result yields its buffer. -/
def screenshotCaptureScriptBranch (execResult : ScriptExecutionResult) :
    Except String (List Nat) :=
  match execResult with
  | ScriptExecutionResult.screenshot r => Except.ok r.buffer
  | ScriptExecutionResult.html _ =>
    Except.error "Script called html() but screenshot_capture expects screenshot(). Use html_capture tool instead."

example : containsSubstr vmTimeoutMessage timeoutMarker = true := by decide

example : containsSubstr noCaptureMessage timeoutMarker = false := by decide

example :
    executeScript { syncTime := 0, settleTime := 5, outcome := some SettledOutcome.completed } =
      ExecOutcome.settles 5 (Except.error noCaptureMessage) := by decide

/-- One Playwright browser connection: its launch epoch (fresh launches get
fresh ids) and whether `isConnected()` currently reports true. -/
structure BrowserHandle where
  id : Nat
  connected : Bool
  deriving Repr, DecidableEq

/-- Mutable state of a BrowserManager relevant to getBrowser
(browser-manager.ts lines 42-98): the current `this.browser` (null or a
handle) and a counter for fresh launch epochs, plus ghost bookkeeping of
how many `chromium.launch` calls happened and which stale handles were
passed to `browser.close()`. -/
structure BMState where
  browser : Option BrowserHandle
  nextId : Nat
  launches : Nat
  closedIds : List Nat
  deriving Repr, DecidableEq

/-- BrowserManager.isBrowserHealthy (lines 56-58):
`this.browser !== null && this.browser.isConnected()`. -/
def isBrowserHealthy (s : BMState) : Bool :=
  match s.browser with
  | some h => h.connected
  | none => false

/-- The body of getBrowser (lines 63-98) as executed inside its
mutual-exclusion region: the `browserLock` promise chain makes concurrent
calls run this body strictly one after another, so the serialized
execution is a fold of this step. If the current handle is healthy it is
returned unchanged and nothing is launched; otherwise a stale handle (if
any) is closed best-effort — `closeThrows` says whether that close throws,
and the catch swallows it either way — and a fresh connected handle is
launched and stored. -/
def getBrowserStep (s : BMState) (closeThrows : Bool) : BMState × BrowserHandle :=
  match s.browser with
  | some h =>
    if h.connected then (s, h)
    else
      let h2 : BrowserHandle := { id := s.nextId, connected := true }
      ({ browser := some h2, nextId := s.nextId + 1, launches := s.launches + 1,
         closedIds := s.closedIds ++ [h.id] }, h2)
  | none =>
    let h2 : BrowserHandle := { id := s.nextId, connected := true }
    ({ browser := some h2, nextId := s.nextId + 1, launches := s.launches + 1,
       closedIds := s.closedIds }, h2)

/-- Events in a serialized history of the manager: a getBrowser call (with
whether the best-effort close of a stale handle would throw), the browser
process dropping its connection (so `isConnected()` turns false), and the
registered `disconnected` observer firing (lines 89-91), which sets
`this.browser = null`. -/
inductive BMEvent where
  | getB (closeThrows : Bool) : BMEvent
  | connectionLost : BMEvent
  | disconnectObserver : BMEvent
  deriving Repr, DecidableEq

/-- One serialized event of the manager history; getBrowser events return
the handle handed to the caller. -/
def bmStep (s : BMState) : BMEvent → BMState × Option BrowserHandle
  | BMEvent.getB t =>
    let p := getBrowserStep s t
    (p.1, some p.2)
  | BMEvent.connectionLost =>
    ({ s with browser := s.browser.map (fun h => { h with connected := false }) }, none)
  | BMEvent.disconnectObserver => ({ s with browser := none }, none)

/-- Run a serialized event history, collecting every handle returned to a
getBrowser caller. -/
def bmRun (s : BMState) : List BMEvent → BMState × List BrowserHandle
  | [] => (s, [])
  | e :: es =>
    let p := bmStep s e
    let q := bmRun p.1 es
    (q.1, (match p.2 with | some h => [h] | none => []) ++ q.2)

/-- A freshly constructed BrowserManager: `this.browser = null`. -/
def BMState.initial : BMState :=
  { browser := none, nextId := 0, launches := 0, closedIds := [] }

/-- The parts of a constructed BrowserManager instance relevant to the
singleton accessor (browser-manager.ts lines 48-51): the headless flag it
was constructed with and its semaphore, sized MAX_CONCURRENT_CONTEXTS. -/
structure BrowserManagerInst where
  headless : Bool
  semaphore : Semaphore
  deriving Repr, DecidableEq

/-- The BrowserManager constructor (lines 48-51). -/
def BrowserManagerInst.new (headless : Bool) : BrowserManagerInst :=
  { headless := headless, semaphore := Semaphore.new MAX_CONCURRENT_CONTEXTS }

/-- The module-level `browserManager` singleton slot (line 148). -/
structure GlobalState where
  browserManager : Option BrowserManagerInst
  deriving Repr, DecidableEq

/-- getBrowserManager (lines 150-155): construct the singleton on first
call, return the stored instance ever after (the headless argument of a
later call is never read). -/
def getBrowserManager (headless : Bool) (g : GlobalState) : BrowserManagerInst × GlobalState :=
  match g.browserManager with
  | none =>
    let m := BrowserManagerInst.new headless
    (m, { browserManager := some m })
  | some m => (m, g)

/-- closeBrowserManager (lines 157-162): close the manager if present and
reset the singleton slot to null. -/
def closeBrowserManager (g : GlobalState) : GlobalState :=
  match g.browserManager with
  | some _ => { browserManager := none }
  | none => g

example :
    (getBrowserManager false ((getBrowserManager true { browserManager := none }).2)).1.headless
      = true := by decide

/-- The no-capture error message does not contain the timeout marker, so the
catch clause rethrows it unchanged. -/
theorem noCapture_not_marked : containsSubstr noCaptureMessage timeoutMarker = false := by
  decide

/-- The vm timeout error message contains the timeout marker, so the catch
clause classifies it as a timeout. -/
theorem vmTimeout_marked : containsSubstr vmTimeoutMessage timeoutMarker = true := by
  decide

/-- Every handle getBrowserStep hands to its caller reports connected. -/
theorem getBrowserStep_connected (s : BMState) (t : Bool) :
    (getBrowserStep s t).2.connected = true := by
  rcases hs : s.browser with _ | hd
  · simp [getBrowserStep, hs]
  · by_cases hc : hd.connected
    · simp [getBrowserStep, hs, hc]
    · simp [getBrowserStep, hs, hc]

/-- After a getBrowserStep the stored handle is exactly the returned one. -/
theorem getBrowserStep_stores_returned (s : BMState) (t : Bool) :
    (getBrowserStep s t).1.browser = some (getBrowserStep s t).2 := by
  rcases hs : s.browser with _ | hd
  · simp [getBrowserStep, hs]
  · by_cases hc : hd.connected
    · simp [getBrowserStep, hs, hc]
    · simp [getBrowserStep, hs, hc]

/-- Every handle a serialized history returns to a getBrowser caller reports
connected at the moment it is returned. -/
theorem bmRun_all_connected (es : List BMEvent) :
    ∀ (s : BMState), ∀ h ∈ (bmRun s es).2, h.connected = true := by
  induction es with
  | nil => intro s h hm; simp [bmRun] at hm
  | cons e es ih =>
    intro s h hm
    unfold bmRun at hm
    rcases e with t | _ | _
    · simp only [bmStep, List.mem_append] at hm
      rcases hm with hm | hm
      · simp only [List.mem_singleton] at hm
        subst hm
        exact getBrowserStep_connected s t
      · exact ih _ h hm
    · simp only [bmStep, List.nil_append] at hm
      exact ih _ h hm
    · simp only [bmStep, List.nil_append] at hm
      exact ih _ h hm

/-- Claim C1: over createContext followed by its cleanup, the gate state is
restored exactly. On the success path, invoking the wrapped close releases
the permit even when the underlying disposal throws (and the disposal
error still propagates); on the failure path the catch block releases the
permit before the error propagates. Stated for a call whose acquire
resolves immediately (permits available, no earlier waiters pending), so
the net permit change over createContext plus one close, or over a failed
createContext alone, is zero. -/
theorem C1_createContext_permit_balance (s : Semaphore) (caller : Nat)
    (hp : 0 < s.permits) (hq : s.queue = []) :
    (∀ closeThrows : Bool,
      (wrappedClose (createContext s caller false).1 closeThrows).1 = s ∧
      (wrappedClose (createContext s caller false).1 closeThrows).2 =
        (if closeThrows then some "close failed" else none)) ∧
    (createContext s caller false).2 = CreateOutcome.created ∧
    (createContext s caller true).1 = s ∧
    (createContext s caller true).2 = CreateOutcome.failed "context creation failed" := by
  obtain ⟨p, q⟩ := s
  simp only [Semaphore.queue] at hq
  subst hq
  simp only [Semaphore.permits] at hp
  refine ⟨fun closeThrows => ⟨?_, ?_⟩, ?_, ?_, rfl⟩
  · simp [createContext, Semaphore.acquire, hp, wrappedClose, Semaphore.release,
      Semaphore.mk.injEq]
    omega
  · simp [createContext, Semaphore.acquire, hp, wrappedClose]
  · simp [createContext, Semaphore.acquire, hp]
  · simp [createContext, Semaphore.acquire, hp, Semaphore.release, Semaphore.mk.injEq]
    omega

/-- Witness for C1 at a fresh gate of capacity 5: a failed createContext
leaves the gate exactly as it was. -/
theorem C1_createContext_permit_balance_witness :
    (createContext (Semaphore.new 5) 0 true).1 = Semaphore.new 5 :=
  (C1_createContext_permit_balance (Semaphore.new 5) 0 (by decide) rfl).2.2.1

/-- Claim C3: on a fresh gate with N permits, N acquisitions all succeed
immediately and drain the permits; the next acquisition suspends (it can
only resolve later, through the `some w` a release hands out); with two
pending waiters, a release resolves the oldest one (the queue head), not
an arbitrary one, and does not touch the permit count; an acquire with a
permit available is always immediate; a release with no waiters increments
the available count. -/
theorem C3_gate_fifo (n w1 w2 : Nat) (ws : List Nat) (hlen : ws.length = n) :
    ((Semaphore.new n).acquireAll ws).1 = ⟨0, []⟩ ∧
    (∀ p ∈ ((Semaphore.new n).acquireAll ws).2, p.2 = AcquireOutcome.immediate) ∧
    Semaphore.acquire ⟨0, []⟩ w1 = (⟨0, [w1]⟩, AcquireOutcome.suspended) ∧
    Semaphore.acquire ⟨0, [w1]⟩ w2 = (⟨0, [w1, w2]⟩, AcquireOutcome.suspended) ∧
    Semaphore.release ⟨0, [w1, w2]⟩ = (⟨0, [w2]⟩, some w1) ∧
    (∀ s : Semaphore, 0 < s.permits →
      (s.acquire w1).2 = AcquireOutcome.immediate ∧
      (s.acquire w1).1 = { s with permits := s.permits - 1 }) ∧
    (∀ s : Semaphore, s.queue = [] →
      s.release = ({ s with permits := s.permits + 1 }, none)) := by
  subst hlen
  refine ⟨?_, ?_, rfl, rfl, rfl, ?_, ?_⟩
  · rw [acquireAll_exhausts]
  · rw [acquireAll_exhausts]
    intro p hp
    simp only [List.mem_map] at hp
    obtain ⟨w, _, rfl⟩ := hp
    rfl
  · intro s hs
    simp [Semaphore.acquire, if_pos hs]
  · intro s hs
    obtain ⟨p, q⟩ := s
    simp only [Semaphore.queue] at hs
    subst hs
    rfl

/-- Witness for C3 on a gate with two permits and callers 10, 11 acquiring. -/
theorem C3_gate_fifo_witness :
    ((Semaphore.new 2).acquireAll [10, 11]).1 = ⟨0, []⟩ :=
  (C3_gate_fifo 2 12 13 [10, 11] rfl).1

/-- Claim C4 is false on the code: release() takes no permit argument and is
unguarded, so a call sequence can release more than it acquired. From a
fresh gate of capacity 5 with nothing acquired, one release() pushes the
available count to 6, above the configured capacity; and after a single
acquire (state ⟨4, []⟩), invoking the wrapped close twice performs two
releases, ending at 6 available permits — a second release of the same
conceptual permit is not prevented. -/
theorem C4_counterexample :
    (Semaphore.new 5).release = (⟨6, []⟩, none) ∧
    MAX_CONCURRENT_CONTEXTS < ((Semaphore.new 5).release).1.permits ∧
    ((Semaphore.new 5).acquire 0).1 = ⟨4, []⟩ ∧
    (wrappedClose (wrappedClose ⟨4, []⟩ false).1 false).1 = ⟨6, []⟩ := by
  decide

/-- Claim C4 as amended: the Gate does not consume a permit on release —
release() takes no permit token, and each call unconditionally either
resolves the oldest waiter or increments the available count, so extra
releases (in particular a second invocation of a context's wrapped close,
which performs one release per invocation) are not structurally prevented;
balance relies on the repository's call sites releasing once per
acquisition. -/
theorem C4_release_unguarded (s : Semaphore) :
    (s.queue = [] → s.release = ({ s with permits := s.permits + 1 }, none)) ∧
    (∀ w rest, s.queue = w :: rest → s.release = ({ s with queue := rest }, some w)) ∧
    (∀ t1 t2 : Bool,
      (wrappedClose (wrappedClose s t1).1 t2).1 = ((s.release).1.release).1) := by
  refine ⟨?_, ?_, ?_⟩
  · intro hs
    obtain ⟨p, q⟩ := s
    simp only [Semaphore.queue] at hs
    subst hs
    rfl
  · intro w rest hs
    obtain ⟨p, q⟩ := s
    simp only [Semaphore.queue] at hs
    subst hs
    rfl
  · intro t1 t2
    simp [wrappedClose]

/-- Witness for C4's amended statement: with one pending waiter 9, release
resolves it; and a double wrapped close from ⟨4, []⟩ reaches 6 permits. -/
theorem C4_release_unguarded_witness :
    Semaphore.release ⟨0, [9]⟩ = (⟨0, []⟩, some 9) :=
  (C4_release_unguarded ⟨0, [9]⟩).2.1 9 [] rfl

/-- Claim C2 fails on the code: the vm `timeout` option bounds only the
synchronous portion of the evaluated code, while the async IIFE's promise
is awaited with no deadline. A script that spends 90000 ms in awaited
operations and then captures (syncTime 0, settleTime 90000) settles as a
successful screenshot, well past the 60000 ms deadline, without any
timeout; a script whose promise never settles leaves executeScript
pending forever instead of resolving to a timeout error. Only a
synchronous overrun (syncTime 60001) is actively aborted and classified
as a timeout. -/
theorem C2_async_execution_unbounded :
    executeScript
        { syncTime := 0, settleTime := 90000,
          outcome := some (SettledOutcome.screenshotTaken ⟨[], ⟨none, none⟩⟩) } =
      ExecOutcome.settles 90000
        (Except.ok (ScriptExecutionResult.screenshot ⟨[], ⟨none, none⟩⟩)) ∧
    SCRIPT_TIMEOUT < 90000 ∧
    executeScript { syncTime := 0, settleTime := 0, outcome := none } =
      ExecOutcome.neverSettles ∧
    executeScript
        { syncTime := 60001, settleTime := 60001,
          outcome := some SettledOutcome.completed } =
      ExecOutcome.settles SCRIPT_TIMEOUT (Except.error timeoutErrorMessage) := by
  refine ⟨?_, by decide, ?_, ?_⟩
  · simp [executeScript, SCRIPT_TIMEOUT, handleCaught]
  · simp [executeScript, SCRIPT_TIMEOUT]
  · simp [executeScript, SCRIPT_TIMEOUT, handleCaught, vmTimeout_marked]

/-- Claim C5: a script whose run completes normally without raising a
termination signal makes executeScript fail with the no-capture error
(thrown at line 94 and rethrown unchanged by the catch clause, since its
message does not contain the timeout marker); no capture result is
returned. -/
theorem C5_no_capture_error (b : ScriptBehavior) (hsync : b.syncTime ≤ SCRIPT_TIMEOUT)
    (hout : b.outcome = some SettledOutcome.completed) :
    executeScript b = ExecOutcome.settles b.settleTime (Except.error noCaptureMessage) := by
  simp [executeScript, Nat.not_lt.mpr hsync, hout, handleCaught, noCapture_not_marked]

/-- Witness for C5: a script settling at 5 ms having completed without a
capture yields the no-capture error. -/
theorem C5_no_capture_error_witness :
    executeScript { syncTime := 0, settleTime := 5, outcome := some SettledOutcome.completed } =
      ExecOutcome.settles 5 (Except.error noCaptureMessage) :=
  C5_no_capture_error { syncTime := 0, settleTime := 5, outcome := some SettledOutcome.completed }
    (by decide) rfl

/-- Claim C6: the sandbox globals (vm.createContext, script-executor.ts
lines 34-79) always include both capture operations — executeScript takes
no expected-kind argument, so the sandbox is the same whichever tool runs
the script, and a run can settle as either capture kind; the expecting
tool's handler then rejects a capture of the wrong kind with a mismatch
error instead of silently accepting it (html_capture rejects a screenshot
result, screenshot_capture rejects an html result). -/
theorem C6_both_captures_and_kind_mismatch :
    "screenshot" ∈ sandboxGlobals ∧ "html" ∈ sandboxGlobals ∧
    (∀ (t : Nat) (r : ScriptResult),
      executeScript
          { syncTime := 0, settleTime := t,
            outcome := some (SettledOutcome.screenshotTaken r) } =
        ExecOutcome.settles t (Except.ok (ScriptExecutionResult.screenshot r))) ∧
    (∀ (t : Nat) (r : HtmlCaptureResult),
      executeScript
          { syncTime := 0, settleTime := t,
            outcome := some (SettledOutcome.htmlCaptured r) } =
        ExecOutcome.settles t (Except.ok (ScriptExecutionResult.html r))) ∧
    (∀ r : ScriptResult,
      htmlCaptureScriptBranch (ScriptExecutionResult.screenshot r) =
        Except.error "Script called screenshot() but html_capture expects html(). Use screenshot_capture tool instead.") ∧
    (∀ r : HtmlCaptureResult,
      screenshotCaptureScriptBranch (ScriptExecutionResult.html r) =
        Except.error "Script called html() but screenshot_capture expects screenshot(). Use html_capture tool instead.") := by
  refine ⟨by decide, by decide, ?_, ?_, ?_, ?_⟩
  · intro t r
    simp [executeScript, SCRIPT_TIMEOUT, handleCaught]
  · intro t r
    simp [executeScript, SCRIPT_TIMEOUT, handleCaught]
  · intro r
    rfl
  · intro r
    rfl

/-- Claim C7: getBrowser always hands back a handle that reports connected;
when the stored handle is healthy it is returned as-is with no launch;
when it is stale (disconnected) it is closed best-effort — the outcome is
identical whether or not that close throws — and a fresh handle (distinct
from the stale one) is launched, stored and returned; the body runs inside
the browserLock promise chain, so serialized back-to-back calls are the
semantics of concurrent calls, and the second of two back-to-back calls
performs no further launch and returns the same handle; and over any
serialized history (including connection losses and the disconnected
observer firing), every handle returned to a caller reports connected, so
a handle is never returned after it reports disconnected. -/
theorem C7_getBrowser_healthy_serialized :
    (∀ (s : BMState) (t : Bool), (getBrowserStep s t).2.connected = true) ∧
    (∀ (s : BMState) (h : BrowserHandle) (t : Bool),
      s.browser = some h → h.connected = true → getBrowserStep s t = (s, h)) ∧
    (∀ (s : BMState) (h : BrowserHandle) (t : Bool),
      s.browser = some h → h.connected = false →
        (getBrowserStep s t).2 = { id := s.nextId, connected := true } ∧
        (getBrowserStep s t).2 ≠ h ∧
        (getBrowserStep s t).1.closedIds = s.closedIds ++ [h.id] ∧
        (getBrowserStep s t).1.launches = s.launches + 1) ∧
    (∀ (s : BMState) (t1 t2 : Bool), getBrowserStep s t1 = getBrowserStep s t2) ∧
    (∀ (s : BMState) (t1 t2 : Bool),
      getBrowserStep (getBrowserStep s t1).1 t2 =
        ((getBrowserStep s t1).1, (getBrowserStep s t1).2)) ∧
    (∀ (s : BMState) (es : List BMEvent), ∀ h ∈ (bmRun s es).2, h.connected = true) := by
  have hstep2 : ∀ (s : BMState) (h : BrowserHandle) (t : Bool),
      s.browser = some h → h.connected = true → getBrowserStep s t = (s, h) := by
    intro s h t hs hc
    simp [getBrowserStep, hs, hc]
  refine ⟨getBrowserStep_connected, hstep2, ?_, ?_, ?_, ?_⟩
  · intro s h t hs hc
    refine ⟨?_, ?_, ?_, ?_⟩
    · simp [getBrowserStep, hs, hc]
    · intro he
      have hcon := getBrowserStep_connected s t
      rw [he, hc] at hcon
      exact Bool.noConfusion hcon
    · simp [getBrowserStep, hs, hc]
    · simp [getBrowserStep, hs, hc]
  · intro s t1 t2
    rcases hs : s.browser with _ | hd
    · simp [getBrowserStep, hs]
    · by_cases hc : hd.connected
      · simp [getBrowserStep, hs, hc]
      · simp [getBrowserStep, hs, hc]
  · intro s t1 t2
    exact hstep2 (getBrowserStep s t1).1 (getBrowserStep s t1).2 t2
      (getBrowserStep_stores_returned s t1) (getBrowserStep_connected s t1)
  · intro s es
    exact bmRun_all_connected es s

/-- Witness for C7 on concrete states: a healthy manager returns its stored
handle unchanged, and a stale manager returns the fresh handle. -/
theorem C7_getBrowser_healthy_serialized_witness :
    getBrowserStep ⟨some ⟨0, true⟩, 1, 1, []⟩ true = (⟨some ⟨0, true⟩, 1, 1, []⟩, ⟨0, true⟩) ∧
    (getBrowserStep ⟨some ⟨0, false⟩, 1, 1, []⟩ true).2 = ⟨1, true⟩ :=
  ⟨C7_getBrowser_healthy_serialized.2.1 ⟨some ⟨0, true⟩, 1, 1, []⟩ ⟨0, true⟩ true rfl rfl,
    (C7_getBrowser_healthy_serialized.2.2.1 ⟨some ⟨0, false⟩, 1, 1, []⟩ ⟨0, false⟩ true rfl
      rfl).1⟩

/-- Claim C8: the sandbox wait helper and the page proxy's waitForTimeout
both clamp the requested duration with Math.min, so the observed
suspension is min(requested, 30000) and the promise never rejects. -/
theorem C8_wait_clamped (ms : Nat) :
    wait ms = { time := min ms MAX_WAIT_TIME, rejected := none } ∧
    waitForTimeout ms = { time := min ms MAX_WAIT_TIME, rejected := none } ∧
    (MAX_WAIT_TIME < ms →
      (wait ms).time = MAX_WAIT_TIME ∧ (waitForTimeout ms).time = MAX_WAIT_TIME) := by
  refine ⟨rfl, rfl, fun hms => ⟨?_, ?_⟩⟩
  · simp [wait, Nat.min_eq_right (Nat.le_of_lt hms)]
  · simp [waitForTimeout, Nat.min_eq_right (Nat.le_of_lt hms)]

/-- Witness for C8 at a 40000 ms request: the observed suspension is the
30000 ms ceiling. -/
theorem C8_wait_clamped_witness : (wait 40000).time = MAX_WAIT_TIME :=
  ((C8_wait_clamped 40000).2.2 (by decide)).1

/-- Claim C9 is false on the code: the classification at line 107 is guarded
by `e instanceof Error` in the host realm, and an Error the script
constructs inside the vm realm is an instance of the sandbox realm's
Error intrinsic, so the cross-realm check is false. A script that itself
throws an Error carrying the marker text, settling at 7 ms — well within
the deadline — is therefore rethrown unchanged as a runtime error with
its original message, not reported as a timeout. -/
theorem C9_counterexample :
    executeScript
        { syncTime := 0, settleTime := 7,
          outcome := some (SettledOutcome.threw false "my Script execution timed out story") } =
      ExecOutcome.settles 7 (Except.error "my Script execution timed out story") ∧
    containsSubstr "my Script execution timed out story" timeoutMarker = true ∧
    ("my Script execution timed out story" : String) ≠ timeoutErrorMessage := by
  refine ⟨?_, by decide, by decide⟩
  simp [executeScript, SCRIPT_TIMEOUT, handleCaught]

/-- Claim C9 as amended: the catch clause classifies an escaped error as a
script timeout only when it is a host-realm Error instance whose message
contains the marker substring — as the vm timeout error is — regardless
of where in the run it arose or how much time elapsed, replacing its
message with the fixed timeout text; an error the script constructs
inside the vm realm fails the host instanceof check and is rethrown
unchanged as a runtime error carrying its original message, even when
that message contains the marker text. -/
theorem C9_host_realm_marker_classification (b : ScriptBehavior) (msg : String)
    (hsync : b.syncTime ≤ SCRIPT_TIMEOUT) :
    (b.outcome = some (SettledOutcome.threw true msg) →
      containsSubstr msg timeoutMarker = true →
      executeScript b = ExecOutcome.settles b.settleTime (Except.error timeoutErrorMessage)) ∧
    (b.outcome = some (SettledOutcome.threw false msg) →
      executeScript b = ExecOutcome.settles b.settleTime (Except.error msg)) := by
  constructor
  · intro hout hmsg
    simp [executeScript, Nat.not_lt.mpr hsync, hout, handleCaught, hmsg]
  · intro hout
    simp [executeScript, Nat.not_lt.mpr hsync, hout, handleCaught]

/-- Witness for C9's amended statement: a host-realm error carrying the
marker text, settling at 7 ms, is reported as the fixed timeout error. -/
theorem C9_host_realm_marker_classification_witness :
    executeScript
        { syncTime := 0, settleTime := 7,
          outcome := some (SettledOutcome.threw true "my Script execution timed out story") } =
      ExecOutcome.settles 7 (Except.error timeoutErrorMessage) :=
  (C9_host_realm_marker_classification
    { syncTime := 0, settleTime := 7,
      outcome := some (SettledOutcome.threw true "my Script execution timed out story") }
    "my Script execution timed out story" (by decide)).1 rfl (by decide)

/-- Claim C10: getBrowserManager constructs the singleton only when the slot
is empty, with the caller's headless flag and a semaphore of capacity
MAX_CONCURRENT_CONTEXTS = 5; any later call returns the stored instance
and leaves the slot untouched, ignoring its own headless argument, so the
first caller fixes the configuration until closeBrowserManager empties the
slot. -/
theorem C10_singleton_first_call_wins (h1 h2 : Bool) :
    (getBrowserManager h1 { browserManager := none }).1 = BrowserManagerInst.new h1 ∧
    (getBrowserManager h1 { browserManager := none }).2 =
      { browserManager := some (BrowserManagerInst.new h1) } ∧
    (BrowserManagerInst.new h1).headless = h1 ∧
    (BrowserManagerInst.new h1).semaphore = Semaphore.new 5 ∧
    (∀ (g : GlobalState) (m : BrowserManagerInst),
      g.browserManager = some m → getBrowserManager h2 g = (m, g)) ∧
    (getBrowserManager h2 ((getBrowserManager h1 { browserManager := none }).2)).1.headless
      = h1 ∧
    (closeBrowserManager ((getBrowserManager h1 { browserManager := none }).2)).browserManager
      = none := by
  refine ⟨rfl, rfl, rfl, rfl, ?_, rfl, rfl⟩
  intro g m hg
  simp [getBrowserManager, hg]

/-- Witness for C10: with the slot already holding a manager constructed
headless, a second call with the opposite flag returns it unchanged. -/
theorem C10_singleton_first_call_wins_witness :
    getBrowserManager false { browserManager := some (BrowserManagerInst.new true) } =
      (BrowserManagerInst.new true, { browserManager := some (BrowserManagerInst.new true) }) :=
  (C10_singleton_first_call_wins true false).2.2.2.2.1
    { browserManager := some (BrowserManagerInst.new true) } (BrowserManagerInst.new true) rfl

end McpScreenshot
